import Mathlib

/-!
Verification of the citation-generator pipeline (`f_app.py`).

The Python source is shallowly embedded below.  Conventions:
 - a Python dict of bibliographic fields becomes the structure `Metadata`,
   with absent keys represented as the empty string / empty list (the
   formatters only branch on truthiness, so `None` and `""` coincide);
 - network responses are passed to each extractor as an explicit `Option`
   argument (`none` models a transport error or unparseable body);
 - a Python function that may raise (or that returns `None` on a caught
   exception) becomes a Lean function into `Option`; `none` models both a
   caught `except` branch and an uncaught exception where noted;
 - `re.search` of the two concrete patterns in the source is implemented
   directly over `List Char` (ASCII reading of `\d` and `\w`).
-/

namespace CitationGen

/-- The normalized Metadata Record: keys of the dict built by every
extractor in the source; absent keys are the empty string. -/
structure Metadata where
  title : String
  authors : List String
  year : String
  month : String
  journal : String
  volume : String
  issue : String
  doi : String
  url : String
  publisher : String
deriving Repr, DecidableEq

/-- Characters treated as whitespace by Python `str.split()` / `str.strip()`
(ASCII reading). -/
def isPySpace (c : Char) : Bool :=
  c = ' ' || c = '\t' || c = '\n' || c = '\x0d' || c = '\x0b' || c = '\x0c'

/-- Grouping pass for `str.split()`: split a char list at whitespace,
keeping possibly-empty groups (filtered by `pySplitChars`). -/
def pySplitGroups (l : List Char) : List (List Char) :=
  l.foldr
    (fun c acc =>
      if isPySpace c then [] :: acc
      else
        match acc with
        | [] => [[c]]
        | t :: ts => (c :: t) :: ts)
    []

/-- Python `s.split()` on a char list: whitespace-separated tokens, empty
tokens discarded. -/
def pySplitChars (l : List Char) : List (List Char) :=
  (pySplitGroups l).filter (fun t => !t.isEmpty)

/-- Python `s.split()` (no separator argument). -/
def pySplit (s : String) : List String :=
  (pySplitChars s.data).map (fun t => String.mk t)

/-- Python `s.strip()` (ASCII whitespace). -/
def pyStrip (s : String) : String :=
  String.mk (((s.data.dropWhile isPySpace).reverse.dropWhile isPySpace).reverse)

/-- `needle` is a prefix of `hay` (used for substring scanning). -/
def startsWithChars : List Char → List Char → Bool
  | [], _ => true
  | _ :: _, [] => false
  | n :: ns, h :: hs => n == h && startsWithChars ns hs

/-- Python `needle in hay` for strings, over char lists. -/
def containsSub (needle : List Char) : List Char → Bool
  | [] => startsWithChars needle []
  | c :: t => startsWithChars needle (c :: t) || containsSub needle (t : List Char)

/-- Suffix of `hay` after the final occurrence of `needle`
(`none` when `needle` does not occur).  For a needle with no proper
self-overlap, such as `"doi.org/"`, this is the last element of
Python's `hay.split(needle)`. -/
def afterLastOcc (needle : List Char) : List Char → Option (List Char)
  | [] => none
  | c :: t =>
    match afterLastOcc needle t with
    | some r => some r
    | none =>
      if startsWithChars needle (c :: t) then some ((c :: t).drop needle.length)
      else none

/-- Python `url.split('doi.org/')[-1]`: the part after the last
`doi.org/`, or the whole string when it never occurs. -/
def splitDoiOrgLast (url : String) : String :=
  match afterLastOcc "doi.org/".data url.data with
  | some r => String.mk r
  | none => url

/-- `\d` (ASCII). -/
def isDigitC (c : Char) : Bool := c.isDigit

/-- `\w` (ASCII): letters, digits, underscore. -/
def isWordC (c : Char) : Bool := c.isAlphanum || c = '_'

/-- The character class `[-._;()/:\w]` of the DOI regex. -/
def isDoiClassC (c : Char) : Bool :=
  c = '-' || c = '.' || c = '_' || c = ';' || c = '(' || c = ')' ||
  c = '/' || c = ':' || isWordC c

/-- Attempt to match the regex `10\.\d{4,}/[-._;()/:\w]+` at the head of
`s`, returning the (greedy) overall match.  Greediness needs no
backtracking here: `\d` never matches `/`, and the trailing class is the
last regex element. -/
def doiMatchAt (s : List Char) : Option (List Char) :=
  match s with
  | c1 :: c2 :: c3 :: rest =>
    if c1 = '1' ∧ c2 = '0' ∧ c3 = '.' then
      let ds := rest.takeWhile isDigitC
      let rest2 := rest.dropWhile isDigitC
      if ds.length ≥ 4 then
        match rest2 with
        | '/' :: rest3 =>
          let body := rest3.takeWhile isDoiClassC
          if body.length ≥ 1 then
            some ('1' :: '0' :: '.' :: (ds ++ '/' :: body))
          else none
        | _ => none
      else none
    else none
  | _ => none

/-- `re.search` of the DOI pattern: leftmost match, `group(0)`. -/
def doiSearch : List Char → Option (List Char)
  | [] => none
  | c :: t =>
    match doiMatchAt (c :: t) with
    | some m => some m
    | none => doiSearch t

/-- Attempt to match `arxiv.org/(?:abs|pdf)/(\d+\.\d+)` at the head of
`s` (the `.` after `arxiv` is the regex wildcard), returning group 1. -/
def arxivMatchAt (s : List Char) : Option (List Char) :=
  match s with
  | 'a' :: 'r' :: 'x' :: 'i' :: 'v' :: _ :: 'o' :: 'r' :: 'g' :: '/' ::
      c1 :: c2 :: c3 :: '/' :: rest =>
    if (c1 = 'a' ∧ c2 = 'b' ∧ c3 = 's') ∨ (c1 = 'p' ∧ c2 = 'd' ∧ c3 = 'f') then
      let d1 := rest.takeWhile isDigitC
      let r1 := rest.dropWhile isDigitC
      if d1.length ≥ 1 then
        match r1 with
        | '.' :: r2 =>
          let d2 := r2.takeWhile isDigitC
          if d2.length ≥ 1 then some (d1 ++ '.' :: d2) else none
        | _ => none
      else none
    else none
  | _ => none

/-- `re.search` of the arXiv pattern: leftmost match, `group(1)`. -/
def arxivSearch : List Char → Option (List Char)
  | [] => none
  | c :: t =>
    match arxivMatchAt (c :: t) with
    | some g => some g
    | none => arxivSearch t

/-- Lines 129-131 of the source: the DOI candidate the classifier hands to
the DOI extractor — the regex match when present, else (when the string
contains `doi.org`) the part after the last `doi.org/`. -/
def doiCandidate (url : String) : Option String :=
  match doiSearch url.data with
  | some m => some (String.mk m)
  | none =>
    if containsSub "doi.org".data url.data then some (splitDoiOrgLast url)
    else none

/-- One author object of the CrossRef `message.author` list. -/
structure CrossrefAuthor where
  given : Option String
  family : Option String
deriving Repr, DecidableEq

/-- The fields of the CrossRef `message` object read by the DOI extractor;
`none` is an absent key. -/
structure CrossrefMsg where
  title : Option (List String)
  author : Option (List CrossrefAuthor)
  publishedPrintDateParts : Option (List (List Nat))
  containerTitle : Option (List String)
  volume : Option String
  issue : Option String
  publisher : Option String
deriving Repr, DecidableEq

/-- `f"{author.get('given', '')} {author.get('family', '')}"`. -/
def crAuthorName (a : CrossrefAuthor) : String :=
  (a.given.getD "") ++ " " ++ (a.family.getD "")

/-- `data.get(key, [''])[0]`: absent key yields `''`; a present but empty
list raises `IndexError` (modelled as `none`, absorbed by the `except`). -/
def crFirstOfList (field : Option (List String)) : Option String :=
  match field with
  | none => some ""
  | some l => l.head?

/-- `str(data.get('published-print', {}).get('date-parts', [['']])[0][0])`:
absent key yields `str('') = ''`; present but empty outer or inner list
raises `IndexError` (modelled as `none`). -/
def crYear (field : Option (List (List Nat))) : Option String :=
  match field with
  | none => some ""
  | some ll =>
    match ll.head? with
    | none => none
    | some l =>
      match l.head? with
      | none => none
      | some n => some (toString n)

/-- `extract_doi_metadata` (lines 8-29).  `resp = none` models a network
or JSON-parse failure; any uncaught `IndexError` inside the dict-building
is likewise absorbed by the bare `except`, so the result is `none`. -/
def extract_doi_metadata (resp : Option CrossrefMsg) (doi : String) :
    Option Metadata :=
  match resp with
  | none => none
  | some data =>
    match crFirstOfList data.title, crYear data.publishedPrintDateParts,
        crFirstOfList data.containerTitle with
    | some t, some y, some j =>
      some { title := t
             authors := (data.author.getD []).map crAuthorName
             year := y
             month := "December"
             journal := j
             volume := data.volume.getD ""
             issue := data.issue.getD ""
             doi := doi
             url := "https://doi.org/" ++ doi
             publisher := data.publisher.getD "" }
    | _, _, _ => none

/-- The parts of one arXiv Atom `entry` read by the extractor.  An element
whose `find` fails, or whose text is `None`, is `none` (the subsequent
attribute access raises, absorbed by the `except`). -/
structure ArxivEntry where
  title : Option String
  authors : List (Option String)
  published : Option String
deriving Repr, DecidableEq

/-- `datetime.strftime('%B')`: full month name. -/
def monthName : Nat → Option String
  | 1 => some "January"
  | 2 => some "February"
  | 3 => some "March"
  | 4 => some "April"
  | 5 => some "May"
  | 6 => some "June"
  | 7 => some "July"
  | 8 => some "August"
  | 9 => some "September"
  | 10 => some "October"
  | 11 => some "November"
  | 12 => some "December"
  | _ => none

/-- Gregorian leap year, as `datetime` validates dates. -/
def isLeapYear (y : Nat) : Bool :=
  y % 4 = 0 && (y % 100 ≠ 0 || y % 400 = 0)

/-- Number of days of month `m` of year `y`. -/
def daysInMonth (y m : Nat) : Nat :=
  if m = 2 then (if isLeapYear y then 29 else 28)
  else if m = 4 ∨ m = 6 ∨ m = 9 ∨ m = 11 then 30
  else 31

/-- Decimal value of an all-digit, nonempty char list. -/
def parseDigits (l : List Char) : Option Nat :=
  if l ≠ [] ∧ l.all isDigitC then
    some (l.foldl (fun a c => a * 10 + (c.toNat - 48)) 0)
  else none

/-- `datetime.strptime(s, '%Y-%m-%d')` restricted to the year and month it
yields: requires the `YYYY-MM-DD` shape with a valid calendar date,
raising (`none`) otherwise. -/
def strptimeYMD (s : String) : Option (Nat × Nat) :=
  match s.data with
  | [y1, y2, y3, y4, '-', m1, m2, '-', d1, d2] => do
    let y ← parseDigits [y1, y2, y3, y4]
    let m ← parseDigits [m1, m2]
    let d ← parseDigits [d1, d2]
    if 1 ≤ m ∧ m ≤ 12 ∧ 1 ≤ d ∧ d ≤ daysInMonth y m then some (y, m) else none
  | _ => none

/-- `extract_arxiv_metadata` (lines 31-53).  `resp = none` is a network or
XML-parse failure; `some none` is a parsed feed whose `entry` is absent
(the `if entry is not None` guard falls through and the function returns
`None`). -/
def extract_arxiv_metadata (resp : Option (Option ArxivEntry))
    (arxivId : String) : Option Metadata :=
  match resp with
  | none => none
  | some none => none
  | some (some entry) => do
    let t ← entry.title
    let names ← entry.authors.mapM (fun x => x)
    let pub ← entry.published
    let ym ← strptimeYMD (String.mk (pub.data.take 10))
    let mn ← monthName ym.2
    some { title := pyStrip t
           authors := names
           year := String.mk (pub.data.take 4)
           month := mn
           journal := "arXiv"
           volume := ""
           issue := ""
           doi := ""
           url := "https://arxiv.org/abs/" ++ arxivId
           publisher := "Cornell University" }

/-- The meta tags of a fetched page that the generic extractor reads;
`none` / `[]` is an absent tag. -/
structure GeneralPage where
  ogTitle : Option String
  dcTitle : Option String
  citationTitle : Option String
  docTitle : Option String
  citationAuthors : List String
  authorMeta : Option String
  articleAuthor : Option String
  dateMeta : Option String
  journalMeta : Option String
  volumeMeta : Option String
  issueMeta : Option String
deriving Repr, DecidableEq

/-- `extract_general_metadata` (lines 55-124).  `resp = none` is a network
or parse failure.  `nowYear`/`nowMonth` stand for `datetime.now()`'s year
and month name.  The inner date `try` leaves the defaults untouched on a
parse failure. -/
def extract_general_metadata (resp : Option GeneralPage)
    (nowYear nowMonth : String) (url : String) : Option Metadata :=
  match resp with
  | none => none
  | some page =>
    let title :=
      match page.ogTitle <|> page.dcTitle <|> page.citationTitle with
      | some t => t
      | none => page.docTitle.getD ""
    let authors :=
      if page.citationAuthors ≠ [] then page.citationAuthors
      else
        match page.authorMeta <|> page.articleAuthor with
        | some a => [a]
        | none => []
    let ym :=
      match page.dateMeta with
      | none => (nowYear, nowMonth)
      | some ds =>
        match (strptimeYMD
            (String.mk (ds.data.takeWhile (fun c => c ≠ 'T')))).bind
            (fun p => (monthName p.2).map (fun mn => (toString p.1, mn))) with
        | some p => p
        | none => (nowYear, nowMonth)
    some { title := title
           authors := authors
           year := ym.1
           month := ym.2
           journal := page.journalMeta.getD ""
           volume := page.volumeMeta.getD ""
           issue := page.issueMeta.getD ""
           doi := ""
           url := url
           publisher := "" }

/-- `identify_url_type` (lines 126-144), with the three extractors as
explicit parameters (each already closed over its network world). -/
def identify_url_type (doiE arxivE genE : String → Option Metadata)
    (url : String) : Option Metadata :=
  let doiStep : Option Metadata :=
    match doiCandidate url with
    | some d => doiE d
    | none => none
  match doiStep with
  | some m => some m
  | none =>
    match arxivSearch url.data with
    | some g =>
      match arxivE (String.mk g) with
      | some m => some m
      | none => genE url
    | none => genE url

/-- The fixed failure literal of every formatter. -/
def unableMsg : String := "Unable to generate citation."

/-- `https://doi.org/{d}`. -/
def doiLink (d : String) : String := "https://doi.org/" ++ d

/-- APA initials: `'. '.join(n[0] for n in toks)`. -/
def apaInitials (toks : List String) : String :=
  String.intercalate ". " (toks.map (fun n => String.mk (n.data.take 1)))

/-- One APA author, `f"{a.split()[-1]}, {'. '.join(n[0] for n in a.split()[:-1])}."`.
When `a.split()` is empty the `[-1]` index raises `IndexError`, which the
formatter does not catch: modelled as `none`. -/
def apaOneAuthor (a : String) : Option String :=
  match pySplit a with
  | [] => none
  | t :: ts =>
    some ((t :: ts).getLast (List.cons_ne_nil t ts) ++ ", " ++
      apaInitials ((t :: ts).dropLast) ++ ".")

/-- `", ".join(formatted_authors[:-1]) + ", & " + formatted_authors[-1]`. -/
def apaJoin (l : List String) : String :=
  String.intercalate ", " l.dropLast ++ ", & " ++ l.getLastD ""

/-- The list comprehension of line 154: render every author in order,
propagating the first `IndexError` (`none`). -/
def apaMapAuthors : List String → Option (List String)
  | [] => some []
  | a :: t =>
    match apaOneAuthor a with
    | none => none
    | some b => (apaMapAuthors t).map (fun bs => b :: bs)

/-- Lines 152-161: the APA author segment. -/
def apaAuthorText (authors : List String) : Option String :=
  if authors.length > 1 then (apaMapAuthors authors).map apaJoin
  else
    match authors with
    | [] => some ""
    | a :: _ => apaOneAuthor a

/-- Lines 163-174: the APA citation text before the terminal locator. -/
def apaBody (m : Metadata) : Option String :=
  (apaAuthorText m.authors).map (fun a =>
    a ++ " (" ++ m.year ++ (if m.month ≠ "" then ", " ++ m.month else "") ++
    "). " ++ m.title ++
    (if m.journal ≠ "" then
      ". " ++ m.journal ++
      (if m.volume ≠ "" then
        ", " ++ m.volume ++
        (if m.issue ≠ "" then "(" ++ m.issue ++ ")" else "")
      else "")
    else ""))

/-- Lines 176-179: the APA terminal locator (DOI first, else URL). -/
def apaLocator (m : Metadata) : String :=
  if m.doi ≠ "" then ". " ++ doiLink m.doi
  else if m.url ≠ "" then ". " ++ m.url
  else ""

/-- `format_apa_citation` (lines 146-181) on an optional record. -/
def format_apa_citation : Option Metadata → Option String
  | none => some unableMsg
  | some m =>
    if m.title = "" then some unableMsg
    else (apaBody m).map (fun b => b ++ apaLocator m)

/-- Lines 189-195: the Chicago author segment. -/
def chicagoAuthorText (authors : List String) : String :=
  if authors.length > 1 then
    String.intercalate ", " authors.dropLast ++ ", and " ++ authors.getLastD ""
  else
    match authors with
    | [] => ""
    | a :: _ => a

/-- Lines 197-210: the Chicago citation text before the terminal locator. -/
def chicagoBody (m : Metadata) : String :=
  chicagoAuthorText m.authors ++ ". \"" ++ m.title ++ "\"" ++
  (if m.journal ≠ "" then
    ". " ++ m.journal ++
    (if m.volume ≠ "" then
      " " ++ m.volume ++
      (if m.issue ≠ "" then ", no. " ++ m.issue else "")
    else "")
  else "") ++
  (if m.month ≠ "" ∧ m.year ≠ "" then " " ++ m.month ++ " " ++ m.year ++ "."
   else if m.year ≠ "" then " " ++ m.year ++ "."
   else "")

/-- Lines 212-215: the Chicago terminal locator. -/
def chicagoLocator (m : Metadata) : String :=
  if m.doi ≠ "" then " " ++ doiLink m.doi ++ "."
  else if m.url ≠ "" then " " ++ m.url ++ "."
  else ""

/-- `format_chicago_citation` (lines 183-217). -/
def format_chicago_citation : Option Metadata → String
  | none => unableMsg
  | some m =>
    if m.title = "" then unableMsg else chicagoBody m ++ chicagoLocator m

/-- Lines 225-232: the MLA author segment. -/
def mlaAuthorText (authors : List String) : String :=
  match authors with
  | [] => ""
  | a :: rest => if rest ≠ [] then a ++ ", et al" else a

/-- Lines 234-246: the MLA citation text before the terminal locator. -/
def mlaBody (m : Metadata) : String :=
  mlaAuthorText m.authors ++ ". \"" ++ m.title ++ "\"" ++
  (if m.journal ≠ "" then
    ". " ++ m.journal ++
    (if m.volume ≠ "" ∧ m.issue ≠ "" then
      ", vol. " ++ m.volume ++ ", no. " ++ m.issue
    else "")
  else "") ++
  (if m.publisher ≠ "" then ", " ++ m.publisher else "") ++
  (if m.month ≠ "" ∧ m.year ≠ "" then
    ", " ++ String.mk (m.month.data.take 3) ++ ". " ++ m.year
  else "")

/-- Lines 248-251: the MLA terminal locator. -/
def mlaLocator (m : Metadata) : String :=
  if m.doi ≠ "" then ". Crossref, " ++ doiLink m.doi
  else if m.url ≠ "" then ". " ++ m.url
  else ""

/-- `format_mla_citation` (lines 219-254); always ends with `'.'`. -/
def format_mla_citation : Option Metadata → String
  | none => unableMsg
  | some m =>
    if m.title = "" then unableMsg else mlaBody m ++ mlaLocator m ++ "."

/-- The registry response of end-to-end scenario 1. -/
def crossrefScenarioMsg : CrossrefMsg :=
  { title := some ["Example Paper"]
    author := some [⟨some "Jane", some "Doe"⟩]
    publishedPrintDateParts := some [[2023]]
    containerTitle := some ["Journal of Examples"]
    volume := some "5"
    issue := some "2"
    publisher := some "Example Press" }

/-- The arXiv feed entry of end-to-end scenario 2. -/
def arxivScenarioEntry : ArxivEntry :=
  { title := some "Deep Learning Survey"
    authors := [some "Alice Smith"]
    published := some "2023-05-10T00:00:00Z" }

/-- A record with an empty title but every other field populated. -/
def sampleEmptyTitleRecord : Metadata :=
  { title := "", authors := ["Jane Doe"], year := "2023", month := "May"
    journal := "Journal of Examples", volume := "5", issue := "2"
    doi := "10.1000/xyz123", url := "https://doi.org/10.1000/xyz123"
    publisher := "Example Press" }

/-- A record with both a DOI and a plain URL. -/
def sampleDoiRecord : Metadata :=
  { title := "Example Paper", authors := ["Jane Doe"], year := "2023"
    month := "December", journal := "", volume := "", issue := ""
    doi := "10.1000/xyz123", url := "https://example.com/paper"
    publisher := "" }

/-- A record with two authors, for the MLA et-al rule. -/
def sampleTwoAuthorRecord : Metadata :=
  { title := "Example Paper", authors := ["Jane Doe", "John Smith"]
    year := "", month := "", journal := "", volume := "", issue := ""
    doi := "", url := "https://example.com/paper", publisher := "" }

/-- A registry response carrying no print-publication date. -/
def crossrefNoDateMsg : CrossrefMsg :=
  { title := some ["Example Paper"]
    author := none
    publishedPrintDateParts := none
    containerTitle := none
    volume := none
    issue := none
    publisher := none }

/-- A record whose single author is a one-token name. -/
def sampleOneTokenAuthorRecord : Metadata :=
  { title := "Example Paper", authors := ["Cher"], year := "", month := ""
    journal := "", volume := "", issue := "", doi := ""
    url := "https://example.com/paper", publisher := "" }

/-!  Theorems. -/

/-- Claim C1: for every Metadata Record whose title field is empty, each of
the three formatters (APA, Chicago, MLA) returns exactly the string
"Unable to generate citation.", regardless of the values of all other
fields of the record. -/
theorem claim1_empty_title_unable (m : Metadata) (h : m.title = "") :
    format_apa_citation (some m) = some "Unable to generate citation." ∧
    format_chicago_citation (some m) = "Unable to generate citation." ∧
    format_mla_citation (some m) = "Unable to generate citation." := by
  refine ⟨?_, ?_, ?_⟩ <;>
    simp [format_apa_citation, format_chicago_citation, format_mla_citation,
      h, unableMsg]

/-- Witness for C1 at a record with every non-title field populated. -/
theorem claim1_empty_title_unable_witness :
    format_apa_citation (some sampleEmptyTitleRecord) =
      some "Unable to generate citation." ∧
    format_chicago_citation (some sampleEmptyTitleRecord) =
      "Unable to generate citation." ∧
    format_mla_citation (some sampleEmptyTitleRecord) =
      "Unable to generate citation." :=
  claim1_empty_title_unable sampleEmptyTitleRecord rfl

/-- Claim C4: end-to-end, the URL `https://doi.org/10.1000/xyz123` with the
scenario registry response formats in APA style to exactly
`Doe, J. (2023, December). Example Paper. Journal of Examples, 5(2).
https://doi.org/10.1000/xyz123`. -/
theorem claim4_doi_end_to_end_apa :
    format_apa_citation (identify_url_type
        (fun d => extract_doi_metadata (some crossrefScenarioMsg) d)
        (fun _ => none) (fun _ => none) "https://doi.org/10.1000/xyz123") =
      some ("Doe, J. (2023, December). Example Paper. Journal of Examples, " ++
        "5(2). https://doi.org/10.1000/xyz123") := by
  rfl

/-- Claim C5: end-to-end, the URL `https://arxiv.org/abs/2301.12345` with
the scenario feed entry formats in MLA style to exactly
`Alice Smith. "Deep Learning Survey". arXiv, Cornell University, May. 2023.
https://arxiv.org/abs/2301.12345.`. -/
theorem claim5_arxiv_end_to_end_mla :
    format_mla_citation (identify_url_type
        (fun _ => none)
        (fun i => extract_arxiv_metadata (some (some arxivScenarioEntry)) i)
        (fun _ => none) "https://arxiv.org/abs/2301.12345") =
      "Alice Smith. \"Deep Learning Survey\". arXiv, Cornell University, " ++
        "May. 2023. https://arxiv.org/abs/2301.12345." := by
  rfl

/-- Claim C6: the APA author segment renders `["Jane Ann Doe"]` as
`Doe, J. A.` and `["Jane Doe", "John Smith"]` as `Doe, J., & Smith, J.`. -/
theorem claim6_apa_author_rendering :
    apaAuthorText ["Jane Ann Doe"] = some "Doe, J. A." ∧
    apaAuthorText ["Jane Doe", "John Smith"] = some "Doe, J., & Smith, J." := by
  exact ⟨rfl, rfl⟩

/-- Claim C2: for every record with a nonempty title and nonempty doi, the
APA citation ends with `https://doi.org/{doi}`, the Chicago and MLA
citations end with `https://doi.org/{doi}` followed only by the style's
closing period, and no formatter's output depends on the plain url field
(so the url never appears as the terminal locator). -/
theorem claim2_doi_terminal_locator (m : Metadata)
    (ht : m.title ≠ "") (hd : m.doi ≠ "") :
    (∀ c, format_apa_citation (some m) = some c →
        (doiLink m.doi).data <:+ c.data) ∧
    (doiLink m.doi ++ ".").data <:+ (format_chicago_citation (some m)).data ∧
    (doiLink m.doi ++ ".").data <:+ (format_mla_citation (some m)).data ∧
    ∀ u,
      format_apa_citation (some { m with url := u }) =
        format_apa_citation (some m) ∧
      format_chicago_citation (some { m with url := u }) =
        format_chicago_citation (some m) ∧
      format_mla_citation (some { m with url := u }) =
        format_mla_citation (some m) := by
  refine ⟨?_, ?_, ?_, ?_⟩
  · intro c hc
    simp only [format_apa_citation, if_neg ht] at hc
    rcases hb : apaBody m with _ | b
    · rw [hb] at hc; simp at hc
    · rw [hb] at hc
      have hc2 : b ++ apaLocator m = c := by simpa using hc
      subst hc2
      refine ⟨(b ++ ". ").data, ?_⟩
      simp [apaLocator, hd, String.data_append]
  · simp only [format_chicago_citation, if_neg ht]
    refine ⟨(chicagoBody m ++ " ").data, ?_⟩
    simp [chicagoLocator, hd, String.data_append]
  · simp only [format_mla_citation, if_neg ht]
    refine ⟨(mlaBody m ++ ". Crossref, ").data, ?_⟩
    simp [mlaLocator, hd, String.data_append]
  · intro u
    refine ⟨?_, ?_, ?_⟩ <;>
      simp [format_apa_citation, format_chicago_citation, format_mla_citation,
        apaBody, apaAuthorText, apaLocator, chicagoBody, chicagoAuthorText,
        chicagoLocator, mlaBody, mlaAuthorText, mlaLocator, ht, hd]

/-- Witness for C2: the Chicago citation of a record carrying both a DOI
and a URL ends with the DOI link plus the closing period. -/
theorem claim2_doi_terminal_locator_witness :
    (doiLink sampleDoiRecord.doi ++ ".").data <:+
      (format_chicago_citation (some sampleDoiRecord)).data :=
  (claim2_doi_terminal_locator sampleDoiRecord (by decide) (by decide)).2.1

/-- Claim C3: an extractor handed a failed fetch returns the failure signal
`none` rather than raising, and when the classifier finds a DOI pattern,
no arXiv pattern, and the DOI extractor fails, it falls through to the
generic extractor on the same original URL. -/
theorem claim3_extractor_fault_tolerance
    (doiE arxivE genE : String → Option Metadata) (url : String)
    (d : List Char)
    (hdoi : doiSearch url.data = some d)
    (harx : arxivSearch url.data = none)
    (hfail : doiE (String.mk d) = none) :
    identify_url_type doiE arxivE genE url = genE url ∧
    (∀ s, extract_doi_metadata none s = none) ∧
    (∀ s, extract_arxiv_metadata none s = none) ∧
    (∀ y mo s, extract_general_metadata none y mo s = none) := by
  refine ⟨?_, fun s => rfl, fun s => rfl, fun y mo s => rfl⟩
  simp [identify_url_type, doiCandidate, hdoi, hfail, harx]

/-- Witness for C3: a bare DOI URL whose DOI lookup fails falls through to
the generic extractor. -/
theorem claim3_extractor_fault_tolerance_witness :
    identify_url_type (fun _ => none) (fun _ => none)
      (fun u => extract_general_metadata none "2025" "October" u)
      "10.1234/abc" =
    extract_general_metadata none "2025" "October" "10.1234/abc" :=
  (claim3_extractor_fault_tolerance (fun _ => none) (fun _ => none)
    (fun u => extract_general_metadata none "2025" "October" u)
    "10.1234/abc" "10.1234/abc".data rfl rfl rfl).1

/-- Claim C7: for a record with nonempty title and more than one author,
the MLA author segment is exactly the first author's full name followed by
`, et al`, and the citation does not depend on the authors after the
first. -/
theorem claim7_mla_et_al (m : Metadata) (ht : m.title ≠ "")
    (a : String) (rest : List String)
    (ha : m.authors = a :: rest) (hr : rest ≠ []) :
    mlaAuthorText m.authors = a ++ ", et al" ∧
    ∀ rest2, rest2 ≠ [] →
      format_mla_citation (some { m with authors := a :: rest2 }) =
        format_mla_citation (some m) := by
  constructor
  · rw [ha]; simp [mlaAuthorText, hr]
  · intro rest2 h2
    simp [format_mla_citation, mlaBody, mlaAuthorText, mlaLocator, ha, hr,
      h2, ht]

/-- Witness for C7: the two-author record renders its MLA author segment as
`Jane Doe, et al`. -/
theorem claim7_mla_et_al_witness :
    mlaAuthorText sampleTwoAuthorRecord.authors = "Jane Doe" ++ ", et al" :=
  (claim7_mla_et_al sampleTwoAuthorRecord (by decide) "Jane Doe"
    ["John Smith"] rfl (by decide)).1

/-- A DOI-pattern match cannot start at a character other than `1`. -/
theorem doiMatchAt_ne_one {c : Char} (cs : List Char) (h : c ≠ '1') :
    doiMatchAt (c :: cs) = none := by
  match cs with
  | [] => rfl
  | [c2] => rfl
  | c2 :: c3 :: t => simp [doiMatchAt, h]

/-- Prepending characters other than `1` does not change the leftmost
DOI-pattern match. -/
theorem doiSearch_append_skip (pre s : List Char) (h : ∀ c ∈ pre, c ≠ '1') :
    doiSearch (pre ++ s) = doiSearch s := by
  induction pre with
  | nil => rfl
  | cons c t ih =>
    have hc : c ≠ '1' := h c (List.mem_cons_self c t)
    have hm : doiMatchAt (c :: (t ++ s)) = none := doiMatchAt_ne_one _ hc
    have ih2 := ih (fun x hx => h x (List.mem_cons_of_mem c hx))
    simpa [doiSearch, hm] using ih2

/-- Claim C8: a string that fully matches the DOI pattern yields the same
extracted DOI candidate whether presented bare or after
`https://doi.org/`. -/
theorem claim8_doi_candidate_invariance (d : String)
    (h : doiMatchAt d.data = some d.data) :
    doiCandidate d = some d ∧
    doiCandidate ("https://doi.org/" ++ d) = some d := by
  have hs : doiSearch d.data = some d.data := by
    rcases hd : d.data with _ | ⟨c, t⟩
    · rw [hd] at h; simp [doiMatchAt] at h
    · rw [hd] at h; simp [doiSearch, h]
  have hs2 : doiSearch ("https://doi.org/" ++ d).data = some d.data := by
    rw [String.data_append]
    exact (doiSearch_append_skip _ _ (by decide)).trans hs
  constructor
  · unfold doiCandidate
    rw [hs]
  · unfold doiCandidate
    rw [hs2]

/-- Witness for C8 at the DOI `10.1000/xyz123`. -/
theorem claim8_doi_candidate_invariance_witness :
    doiCandidate "10.1000/xyz123" = some "10.1000/xyz123" ∧
    doiCandidate ("https://doi.org/" ++ "10.1000/xyz123") =
      some "10.1000/xyz123" :=
  claim8_doi_candidate_invariance "10.1000/xyz123" rfl

/-- Claim C9: when the registry response carries no print-publication date
(and its other list fields do not independently raise), the DOI extractor
still returns a record, whose year field is the empty string. -/
theorem claim9_missing_date_year_empty (msg : CrossrefMsg) (doi : String)
    (hpp : msg.publishedPrintDateParts = none)
    (ht : ∀ l, msg.title = some l → l ≠ [])
    (hc : ∀ l, msg.containerTitle = some l → l ≠ []) :
    (extract_doi_metadata (some msg) doi).map Metadata.year = some "" := by
  rcases hmt : msg.title with _ | l
  · rcases hmc : msg.containerTitle with _ | l2
    · simp [extract_doi_metadata, crFirstOfList, crYear, hpp, hmt, hmc]
    · rcases l2 with _ | ⟨x2, xs2⟩
      · exact absurd rfl (hc _ hmc)
      · simp [extract_doi_metadata, crFirstOfList, crYear, hpp, hmt, hmc]
  · rcases l with _ | ⟨x, xs⟩
    · exact absurd rfl (ht _ hmt)
    · rcases hmc : msg.containerTitle with _ | l2
      · simp [extract_doi_metadata, crFirstOfList, crYear, hpp, hmt, hmc]
      · rcases l2 with _ | ⟨x2, xs2⟩
        · exact absurd rfl (hc _ hmc)
        · simp [extract_doi_metadata, crFirstOfList, crYear, hpp, hmt, hmc]

/-- Witness for C9 at a response with no print-publication date. -/
theorem claim9_missing_date_year_empty_witness :
    (extract_doi_metadata (some crossrefNoDateMsg) "10.1000/xyz123").map
      Metadata.year = some "" :=
  claim9_missing_date_year_empty crossrefNoDateMsg "10.1000/xyz123" rfl
    (by intro l hl; cases hl; decide) (by intro l hl; cases hl)

/-- Rendering every author succeeds when each author splits into at least
one token. -/
theorem apaMapAuthors_isSome (l : List String)
    (h : ∀ a ∈ l, pySplit a ≠ []) : (apaMapAuthors l).isSome = true := by
  induction l with
  | nil => rfl
  | cons a t ih =>
    have ha : pySplit a ≠ [] := h a (List.mem_cons_self a t)
    have h1 : (apaOneAuthor a).isSome = true := by
      rcases hs : pySplit a with _ | ⟨x, xs⟩
      · exact absurd hs ha
      · simp [apaOneAuthor, hs]
    rcases ho : apaOneAuthor a with _ | b
    · rw [ho] at h1; simp at h1
    · have h2 := ih (fun x hx => h x (List.mem_cons_of_mem a hx))
      rcases hmt : apaMapAuthors t with _ | bs
      · rw [hmt] at h2; simp at h2
      · simp [apaMapAuthors, ho, hmt]

/-- Rendering the author list fails as soon as one author has no token. -/
theorem apaMapAuthors_none (l : List String) (a : String) (ha : a ∈ l)
    (h : apaOneAuthor a = none) : apaMapAuthors l = none := by
  induction l with
  | nil => cases ha
  | cons b t ih =>
    rcases List.mem_cons.mp ha with rfl | hmem
    · simp [apaMapAuthors, h]
    · rcases hb : apaOneAuthor b with _ | c
      · simp [apaMapAuthors, hb]
      · simp [apaMapAuthors, hb, ih hmem]

/-- The APA author segment succeeds when every author has a token. -/
theorem apaAuthorText_isSome (l : List String)
    (h : ∀ a ∈ l, pySplit a ≠ []) : (apaAuthorText l).isSome = true := by
  unfold apaAuthorText
  by_cases hl : l.length > 1
  · rw [if_pos hl]
    have h2 := apaMapAuthors_isSome l h
    rcases hmap : apaMapAuthors l with _ | bs
    · rw [hmap] at h2; simp at h2
    · simp
  · rw [if_neg hl]
    rcases l with _ | ⟨a, t⟩
    · rfl
    · have ha := h a (List.mem_cons_self a t)
      rcases hs : pySplit a with _ | ⟨x, xs⟩
      · exact absurd hs ha
      · simp [apaOneAuthor, hs]

/-- The APA author segment fails when some author has no token. -/
theorem apaAuthorText_none (l : List String) (a : String) (ha : a ∈ l)
    (h : pySplit a = []) : apaAuthorText l = none := by
  have hone : apaOneAuthor a = none := by simp [apaOneAuthor, h]
  unfold apaAuthorText
  by_cases hl : l.length > 1
  · rw [if_pos hl, apaMapAuthors_none l a ha hone]; rfl
  · rcases l with _ | ⟨b, t⟩
    · cases ha
    · rw [if_neg hl]
      rcases List.mem_cons.mp ha with rfl | hmem
      · exact hone
      · exfalso
        apply hl
        rcases t with _ | ⟨c, u⟩
        · cases hmem
        · simp

/-- Claim C10: with a nonempty title, the APA formatter returns a citation
whenever every author string splits into at least one whitespace token (a
one-token name renders as `Cher, .`), while any author whose split is
empty makes the `[-1]` index of the author rendering raise (modelled as
`none`). -/
theorem claim10_apa_author_totality :
    (∀ m : Metadata, m.title ≠ "" → (∀ a ∈ m.authors, pySplit a ≠ []) →
        (format_apa_citation (some m)).isSome = true) ∧
    apaOneAuthor "Cher" = some "Cher, ." ∧
    (∀ m : Metadata, m.title ≠ "" → ∀ a ∈ m.authors, pySplit a = [] →
        format_apa_citation (some m) = none) := by
  refine ⟨?_, rfl, ?_⟩
  · intro m ht h
    have h2 := apaAuthorText_isSome m.authors h
    rcases hat : apaAuthorText m.authors with _ | s
    · rw [hat] at h2; simp at h2
    · simp [format_apa_citation, ht, apaBody, hat]
  · intro m ht a ha hs
    simp [format_apa_citation, ht, apaBody,
      apaAuthorText_none m.authors a ha hs]

/-- Witness for C10: the formatter succeeds on a record whose single author
is the one-token name `Cher`. -/
theorem claim10_apa_author_totality_witness :
    (format_apa_citation (some sampleOneTokenAuthorRecord)).isSome = true :=
  claim10_apa_author_totality.1 sampleOneTokenAuthorRecord (by decide)
    (by decide)

end CitationGen
